import Mathlib

/-!
Shallow embedding of the LSG core API backend (app/security.py and the
route modules under app/api), together with theorems checking the
natural-language specification against it.

Conventions of the embedding:
- machine integers are Int or Nat (no overflow is relevant here);
- SQL result sets are Lean lists of rows (structures), SQL NULL is Option;
- a route handler is a function from the database state (plus its request
  parameters) to a pair of the post-request database state and either an
  HTTPException or the response body;
- nondeterministic inputs of the source (uuid4 tokens, NOW()) are passed
  as explicit parameters.
-/

namespace LSG

/-- Detail payload of an HTTPException raised by a route, as a structured
value instead of the Python dict/string. -/
inductive ErrDetail where
  | message (text : String)
  | insufficientPermissions (required_roles : List String)
  | notAllowedPlayerAccess
  | insufficientPoints (current_balance required_amount game_id player_id point_dimension_id : Int)
  | mmvNotFound (game_id modifiable_mechanic_videogame_id : Int)
  | validationError (text : String)
  deriving DecidableEq, Repr

/-- HTTPException: a status code plus a detail payload. -/
structure HTTPExc where
  status_code : Nat
  detail : ErrDetail
  deriving DecidableEq, Repr

/-- CurrentUser from app/security.py: the identity derived from a verified
bearer token (raw_claims omitted: no route examined here reads it). -/
structure CurrentUser where
  sub : String
  role : String
  player_id : Option Int
  email : Option String
  type : String
  deriving DecidableEq, Repr

/-- ROLE_ALL from app/security.py. -/
def ROLE_ALL : List String := ["player", "teacher", "researcher", "admin"]

/-- require_roles from app/security.py: the dependency returned by
require_roles(allowed_roles), applied to the resolved current user.
The AUTH_OPEN_ALL module flag is passed explicitly. -/
def require_roles (auth_open_all : Bool) (allowed_roles : List String)
    (current_user : CurrentUser) : Except HTTPExc CurrentUser :=
  if auth_open_all then .ok current_user
  else if current_user.role ∈ allowed_roles then .ok current_user
  else .error ⟨403, .insufficientPermissions allowed_roles⟩

/-- require_admin from app/security.py. -/
def require_admin (auth_open_all : Bool) : CurrentUser → Except HTTPExc CurrentUser :=
  require_roles auth_open_all ["admin"]

/-- require_admin_or_researcher from app/security.py; this is the
dependency used by list_players in app/api/players.py. -/
def require_admin_or_researcher (auth_open_all : Bool) :
    CurrentUser → Except HTTPExc CurrentUser :=
  require_roles auth_open_all ["admin", "researcher"]

/-- require_admin_or_researcher_or_teacher from app/security.py. -/
def require_admin_or_researcher_or_teacher (auth_open_all : Bool) :
    CurrentUser → Except HTTPExc CurrentUser :=
  require_roles auth_open_all ["admin", "researcher", "teacher"]

/-- guard_player_access from app/security.py: ownership gate for routes
keyed by a path player_id. -/
def guard_player_access (auth_open_all : Bool) (player_id : Int)
    (current_user : CurrentUser) : Except HTTPExc CurrentUser :=
  if auth_open_all then .ok current_user
  else if current_user.role = "admin" ∨ current_user.role = "researcher" ∨
      current_user.role = "teacher" then .ok current_user
  else if current_user.role = "player" ∧ current_user.player_id = some player_id then
    .ok current_user
  else .error ⟨403, .notAllowedPlayerAccess⟩

/-- Names bound at module level in app/api/research_export.py when the
export_points route declaration is evaluated: the import statements at the
top of the file (csv, hashlib, io, os, datetime, the typing and fastapi
names, unquote, BeforeValidator, text, Session, get_db, require_roles)
plus the module-level definitions preceding the route (router,
RESEARCH_PSEUDONYM_SALT, decode_ts and the three helper functions). -/
def research_export_module_scope : List String :=
  ["csv", "hashlib", "io", "os", "datetime", "Any", "Dict", "List",
   "Optional", "Annotated", "unquote", "APIRouter", "Depends",
   "HTTPException", "Query", "Response", "BeforeValidator", "text",
   "Session", "get_db", "require_roles", "router",
   "RESEARCH_PSEUDONYM_SALT", "decode_ts", "_pseudonymize_player",
   "_apply_pseudonymization", "_build_csv_response"]

/-- Module-level names referenced by the export_points route declaration
in app/api/research_export.py, all evaluated at module-definition time:
the decorator argument dependencies=[require_roles(ROLE_ALL)] and the
signature defaults and annotations (Depends(require_roles([...])) with the
CurrentUser annotation, Query defaults, Depends(get_db)). -/
def export_points_route_decl_names : List String :=
  ["router", "require_roles", "ROLE_ALL", "Optional", "Annotated",
   "datetime", "BeforeValidator", "decode_ts", "Query", "Session",
   "Depends", "get_db", "CurrentUser"]

/-- Names defined at module level by app/security.py and importable from
it. -/
def security_module_names : List String :=
  ["AUTH_JWT_SECRET", "AUTH_JWT_ALGORITHM", "AUTH_JWT_ISSUER",
   "AUTH_JWT_AUDIENCE", "AUTH_DISABLED", "AUTH_OPEN_ALL", "bearer_scheme",
   "ROLE_ALL", "CurrentUser", "_decode_token", "get_current_user",
   "require_roles", "require_admin", "require_admin_or_researcher",
   "require_admin_or_researcher_or_teacher", "require_player_or_higher",
   "guard_player_access"]

/-- Route modules assembled by app/main.py via app.include_router. -/
def main_included_router_modules : List String :=
  ["health", "players", "points", "games", "sensors", "analytics", "meta",
   "admin_config", "admin_points", "research_export"]

/-- Row of the points_ledger table, restricted to the columns the embedded
routes read or write. -/
structure LedgerRow where
  id_points_ledger : Int
  id_players : Int
  id_point_dimension : Int
  id_videogame : Option Int
  direction : String
  amount : Int
  source_type : String
  source_ref : String
  payload : Option String
  occurred_at : Option Nat
  deriving DecidableEq, Repr

/-- Row of the redemption_event table. -/
structure RedemptionEventRow where
  id_redemption_event : Int
  id_points_ledger : Int
  id_modifiable_mechanic_videogame : Int
  redeemed_points : Int
  deriving DecidableEq, Repr

/-- Row of modifiable_mechanic_videogames, restricted to the columns used
by the redemption ownership check. -/
structure MMVRow where
  id_modifiable_mechanic_videogame : Int
  id_videogame : Int
  deriving DecidableEq, Repr

/-- Row of player_videogame, restricted to the join columns. -/
structure PVGRow where
  id_player_videogame : Int
  id_players : Int
  id_videogame : Int
  deriving DecidableEq, Repr

/-- Row of lsg_game_session, restricted to the columns the timeline
reads. -/
structure SessionRow where
  id_lsg_game_session : Int
  id_player_videogame : Int
  started_at : Option Nat
  ended_at : Option Nat
  deriving DecidableEq, Repr

/-- Row of sensor_ingest_event, restricted to the columns the timeline
reads. -/
structure SensorRow where
  id_sensor_ingest_event : Int
  id_players : Int
  occurred_at : Option Nat
  deriving DecidableEq, Repr

/-- Row of videogame, restricted to id and name. -/
structure VideogameRow where
  id_videogame : Int
  name : String
  deriving DecidableEq, Repr

/-- Row of point_dimension. -/
structure PointDimensionRow where
  id_point_dimension : Int
  id_attributes : Option Int
  id_subattributes : Option Int
  code : String
  name : String
  deriving DecidableEq, Repr

/-- The database state visible to the embedded routes: one list per table,
AUTO_INCREMENT counters made explicit. -/
structure DBState where
  points_ledger : List LedgerRow
  redemption_event : List RedemptionEventRow
  modifiable_mechanic_videogames : List MMVRow
  player_videogame : List PVGRow
  lsg_game_session : List SessionRow
  sensor_ingest_event : List SensorRow
  videogame : List VideogameRow
  point_dimension : List PointDimensionRow
  attributes : List Int
  subattributes : List Int
  next_ledger_id : Int
  next_redemption_id : Int
  deriving DecidableEq, Repr

/-- The database state with every table empty. -/
def emptyDB : DBState :=
  { points_ledger := [], redemption_event := [],
    modifiable_mechanic_videogames := [], player_videogame := [],
    lsg_game_session := [], sensor_ingest_event := [], videogame := [],
    point_dimension := [], attributes := [], subattributes := [],
    next_ledger_id := 1, next_redemption_id := 1 }

/-- RedeemRequest from app/api/games.py (metadata kept as its serialized
JSON text). -/
structure RedeemRequest where
  modifiable_mechanic_videogame_id : Int
  point_dimension_id : Int
  amount : Int
  metadata : Option String
  deriving DecidableEq, Repr

/-- Signed contribution of one ledger row, mirroring the CASE WHEN
expression of _get_player_game_dimension_balance in app/api/games.py:
CREDIT adds the amount, DEBIT subtracts it, anything else contributes
zero. -/
def ledger_row_signed (r : LedgerRow) : Int :=
  if r.direction = "CREDIT" then r.amount
  else if r.direction = "DEBIT" then -r.amount
  else 0

/-- Row filter of _get_player_game_dimension_balance: WHERE id_players =
pid AND id_videogame = gid AND id_point_dimension = pdid. A row whose
id_videogame is NULL never satisfies the SQL equality against a concrete
game id. -/
def ledger_row_matches (player_id game_id point_dimension_id : Int)
    (r : LedgerRow) : Bool :=
  decide (r.id_players = player_id) &&
  decide (r.id_videogame = some game_id) &&
  decide (r.id_point_dimension = point_dimension_id)

/-- The helper _get_player_game_dimension_balance from app/api/games.py:
the game-scoped balance computed strictly from points_ledger. -/
def _get_player_game_dimension_balance (ledger : List LedgerRow)
    (player_id game_id point_dimension_id : Int) : Int :=
  ((ledger.filter (ledger_row_matches player_id game_id point_dimension_id)).map
    ledger_row_signed).sum

/-- The helper _assert_mmv_exists_for_game from app/api/games.py as a
boolean query: does a modifiable_mechanic_videogames row with this id
belong to this game. -/
def mmv_exists_for_game (st : DBState) (game_id mmv_id : Int) : Bool :=
  st.modifiable_mechanic_videogames.any fun row =>
    decide (row.id_modifiable_mechanic_videogame = mmv_id) &&
    decide (row.id_videogame = game_id)

/-- Response body of the redeem route. -/
structure RedeemResponse where
  status : String
  points_ledger_id : Int
  source_ref : String
  current_balance : Int
  redeemed_amount : Int
  resulting_balance : Int
  game_id : Int
  player_id : Int
  point_dimension_id : Int
  modifiable_mechanic_videogame_id : Int
  deriving DecidableEq, Repr

/-- redeem_mechanic from app/api/games.py. The uuid4 token and the commit
time are explicit parameters. Order of effects follows the source: the
mechanic-ownership check, then the game-scoped balance check (raising 400
INSUFFICIENT_POINTS with no write), then in one transaction the DEBIT
ledger insert and the redemption_event insert. -/
def redeem_mechanic (st : DBState) (game_id player_id : Int)
    (payload : RedeemRequest) (uuid_token : String) (now : Nat) :
    DBState × Except HTTPExc RedeemResponse :=
  if mmv_exists_for_game st game_id payload.modifiable_mechanic_videogame_id then
    if _get_player_game_dimension_balance st.points_ledger player_id game_id
        payload.point_dimension_id < payload.amount then
      (st, .error ⟨400, .insufficientPoints
        (_get_player_game_dimension_balance st.points_ledger player_id game_id
          payload.point_dimension_id)
        payload.amount game_id player_id payload.point_dimension_id⟩)
    else
      let current_balance := _get_player_game_dimension_balance st.points_ledger
        player_id game_id payload.point_dimension_id
      let source_ref := "REDEMPTION-" ++ uuid_token
      let debit_row : LedgerRow :=
        { id_points_ledger := st.next_ledger_id
          id_players := player_id
          id_point_dimension := payload.point_dimension_id
          id_videogame := some game_id
          direction := "DEBIT"
          amount := payload.amount
          source_type := "REDEMPTION"
          source_ref := source_ref
          payload := payload.metadata
          occurred_at := some now }
      let redemption_row : RedemptionEventRow :=
        { id_redemption_event := st.next_redemption_id
          id_points_ledger := st.next_ledger_id
          id_modifiable_mechanic_videogame := payload.modifiable_mechanic_videogame_id
          redeemed_points := payload.amount }
      ({ st with
          points_ledger := st.points_ledger ++ [debit_row]
          redemption_event := st.redemption_event ++ [redemption_row]
          next_ledger_id := st.next_ledger_id + 1
          next_redemption_id := st.next_redemption_id + 1 },
       .ok { status := "redeemed"
             points_ledger_id := st.next_ledger_id
             source_ref := source_ref
             current_balance := current_balance
             redeemed_amount := payload.amount
             resulting_balance := current_balance - payload.amount
             game_id := game_id
             player_id := player_id
             point_dimension_id := payload.point_dimension_id
             modifiable_mechanic_videogame_id := payload.modifiable_mechanic_videogame_id })
  else
    (st, .error ⟨404, .mmvNotFound game_id payload.modifiable_mechanic_videogame_id⟩)

/-- PointsAdjustRequest from app/api/points.py. -/
structure PointsAdjustRequest where
  point_dimension_id : Int
  direction : String
  amount : Int
  reason : Option String
  videogame_id : Option Int
  deriving DecidableEq, Repr

/-- Request validation FastAPI applies to PointsAdjustRequest before the
handler runs: direction is the literal CREDIT or DEBIT, amount is strictly
positive (Field gt=0). -/
def points_adjust_request_valid (p : PointsAdjustRequest) : Bool :=
  (decide (p.direction = "CREDIT") || decide (p.direction = "DEBIT")) &&
  decide (0 < p.amount)

/-- adjust_player_points from app/api/points.py: inserts one ledger row
with caller-chosen direction, source_type ADJUST and the optional reason
as payload; videogame_id may be omitted, leaving the column NULL. -/
def adjust_player_points (st : DBState) (player_id : Int)
    (payload : PointsAdjustRequest) (uuid_token : String) (now : Nat) :
    DBState × Except HTTPExc String :=
  if points_adjust_request_valid payload then
    let source_ref := "ADJUST-" ++ uuid_token
    let row : LedgerRow :=
      { id_points_ledger := st.next_ledger_id
        id_players := player_id
        id_point_dimension := payload.point_dimension_id
        id_videogame := payload.videogame_id
        direction := payload.direction
        amount := payload.amount
        source_type := "ADJUST"
        source_ref := source_ref
        payload := payload.reason
        occurred_at := some now }
    ({ st with
        points_ledger := st.points_ledger ++ [row]
        next_ledger_id := st.next_ledger_id + 1 },
     .ok source_ref)
  else
    (st, .error ⟨422, .validationError "direction must be CREDIT or DEBIT and amount must be positive"⟩)

/-- Spec-side definition, written from the words of the spec for the
refinement claim about the balance: the sum of amounts over CREDIT rows
among the rows matching (player, game, dimension). -/
def spec_credit_sum (ledger : List LedgerRow)
    (player_id game_id point_dimension_id : Int) : Int :=
  ((ledger.filter fun r =>
      ledger_row_matches player_id game_id point_dimension_id r &&
      decide (r.direction = "CREDIT")).map (fun r => r.amount)).sum

/-- Spec-side definition, written from the words of the spec: the sum of
amounts over DEBIT rows among the rows matching (player, game,
dimension). -/
def spec_debit_sum (ledger : List LedgerRow)
    (player_id game_id point_dimension_id : Int) : Int :=
  ((ledger.filter fun r =>
      ledger_row_matches player_id game_id point_dimension_id r &&
      decide (r.direction = "DEBIT")).map (fun r => r.amount)).sum

/-- Concrete database state for the witnesses: a player with a CREDIT of
10 points in dimension 3 under game 2, and mechanic configuration 5
belonging to game 2. -/
def exampleRedeemState : DBState :=
  { emptyDB with
      points_ledger :=
        [{ id_points_ledger := 1, id_players := 1, id_point_dimension := 3,
           id_videogame := some 2, direction := "CREDIT", amount := 10,
           source_type := "ADJUST", source_ref := "ADJUST-seed",
           payload := none, occurred_at := some 100 }]
      modifiable_mechanic_videogames :=
        [{ id_modifiable_mechanic_videogame := 5, id_videogame := 2 }]
      next_ledger_id := 2 }

/-- Concrete redeem request for the witnesses: 15 points of dimension 3
against mechanic configuration 5. -/
def exampleRedeemRequest : RedeemRequest :=
  { modifiable_mechanic_videogame_id := 5, point_dimension_id := 3,
    amount := 15, metadata := none }

/-- Response body of the redeem preview route. -/
structure PreviewResponse where
  can_redeem : Bool
  current_balance : Int
  required_amount : Int
  resulting_balance : Int
  game_id : Int
  player_id : Int
  point_dimension_id : Int
  modifiable_mechanic_videogame_id : Int
  deriving DecidableEq, Repr

/-- preview_redeem_mechanic from app/api/games.py: the mechanic-ownership
check followed by the game-scoped balance read. The handler body contains
no INSERT, UPDATE or DELETE, so the post-request state is the input
state. -/
def preview_redeem_mechanic (st : DBState) (game_id player_id : Int)
    (payload : RedeemRequest) : DBState × Except HTTPExc PreviewResponse :=
  if mmv_exists_for_game st game_id payload.modifiable_mechanic_videogame_id then
    let current_balance := _get_player_game_dimension_balance st.points_ledger
      player_id game_id payload.point_dimension_id
    let would_be_enough : Bool := decide (payload.amount ≤ current_balance)
    (st, .ok { can_redeem := would_be_enough
               current_balance := current_balance
               required_amount := payload.amount
               resulting_balance :=
                 if would_be_enough then current_balance - payload.amount
                 else current_balance
               game_id := game_id
               player_id := player_id
               point_dimension_id := payload.point_dimension_id
               modifiable_mechanic_videogame_id :=
                 payload.modifiable_mechanic_videogame_id })
  else
    (st, .error ⟨404, .mmvNotFound game_id payload.modifiable_mechanic_videogame_id⟩)

/-- One entry of the unified player timeline: the event-type tag, the
occurrence timestamp used for ordering, and the primary id of the
originating row (standing for the data dict of the source). -/
structure TimelineEvent where
  event_type : String
  occurred_at : Option Nat
  item_id : Int
  deriving DecidableEq, Repr

/-- Sort key of the timeline merge in get_player_timeline: the occurrence
time, with a null timestamp keyed as the earliest possible instant
(datetime.min in the source, 0 here). -/
def evKey (e : TimelineEvent) : Nat :=
  match e.occurred_at with
  | some t => t
  | none => 0

/-- Time-window condition added by _add_time_filter in app/api/players.py.
A SQL comparison against a NULL timestamp is never true, so a row with
a null timestamp is dropped whenever a bound is supplied. -/
def in_window (from_ts to_ts : Option Nat) (ts : Option Nat) : Bool :=
  (match from_ts, ts with
   | some f, some t => decide (f ≤ t)
   | some _, none => false
   | none, _ => true) &&
  (match to_ts, ts with
   | some u, some t => decide (t ≤ u)
   | some _, none => false
   | none, _ => true)

/-- Stable insertion into a list already sorted by descending key. -/
def insertDesc {α : Type} (key : α → Nat) (x : α) : List α → List α
  | [] => [x]
  | y :: ys => if key y ≤ key x then x :: y :: ys else y :: insertDesc key x ys

/-- Stable sort by descending key, modelling both the ORDER BY time DESC
of the per-source SQL queries and the Python sorted(..., reverse=True) of
the merge step. -/
def sortDescBy {α : Type} (key : α → Nat) : List α → List α
  | [] => []
  | x :: xs => insertDesc key x (sortDescBy key xs)

/-- Shared shape of each of the four per-source timeline queries: the
optional time-window WHERE clause, ORDER BY occurrence time DESC, LIMIT
limit. -/
def source_query (from_ts to_ts : Option Nat) (limit : Nat)
    (events : List TimelineEvent) : List TimelineEvent :=
  (sortDescBy evKey
    (events.filter fun e => in_window from_ts to_ts e.occurred_at)).take limit

/-- Rows of the first timeline query: lsg_game_session joined through
player_videogame (on the association id and the path player) and
videogame, tagged game_session, with started_at as occurrence time. -/
def session_events (st : DBState) (player_id : Int) : List TimelineEvent :=
  (st.lsg_game_session.filter fun s =>
      st.player_videogame.any fun p =>
        decide (p.id_player_videogame = s.id_player_videogame) &&
        decide (p.id_players = player_id) &&
        st.videogame.any fun v => decide (v.id_videogame = p.id_videogame)).map
    fun s =>
      { event_type := "game_session", occurred_at := s.started_at,
        item_id := s.id_lsg_game_session }

/-- Rows of the second timeline query: points_ledger movements of the
player, tagged points. -/
def points_events (st : DBState) (player_id : Int) : List TimelineEvent :=
  (st.points_ledger.filter fun r => decide (r.id_players = player_id)).map
    fun r =>
      { event_type := "points", occurred_at := r.occurred_at,
        item_id := r.id_points_ledger }

/-- Rows of the third timeline query: sensor_ingest_event rows of the
player, tagged sensor_ingest. -/
def sensor_timeline_events (st : DBState) (player_id : Int) : List TimelineEvent :=
  (st.sensor_ingest_event.filter fun e => decide (e.id_players = player_id)).map
    fun e =>
      { event_type := "sensor_ingest", occurred_at := e.occurred_at,
        item_id := e.id_sensor_ingest_event }

/-- Rows of the fourth timeline query: redemption_event joined with its
points_ledger row, filtered to the player, tagged redemption, with the
ledger occurrence time. -/
def redemption_timeline_events (st : DBState) (player_id : Int) : List TimelineEvent :=
  st.redemption_event.flatMap fun r =>
    (st.points_ledger.filter fun pl =>
        decide (pl.id_points_ledger = r.id_points_ledger) &&
        decide (pl.id_players = player_id)).map
      fun pl =>
        { event_type := "redemption", occurred_at := pl.occurred_at,
          item_id := r.id_redemption_event }

/-- The game-session source of the timeline after window, order and
cap. -/
def timeline_sessions (st : DBState) (player_id : Int)
    (from_ts to_ts : Option Nat) (limit : Nat) : List TimelineEvent :=
  source_query from_ts to_ts limit (session_events st player_id)

/-- The points source of the timeline after window, order and cap. -/
def timeline_points (st : DBState) (player_id : Int)
    (from_ts to_ts : Option Nat) (limit : Nat) : List TimelineEvent :=
  source_query from_ts to_ts limit (points_events st player_id)

/-- The sensor source of the timeline after window, order and cap. -/
def timeline_sensors (st : DBState) (player_id : Int)
    (from_ts to_ts : Option Nat) (limit : Nat) : List TimelineEvent :=
  source_query from_ts to_ts limit (sensor_timeline_events st player_id)

/-- The redemption source of the timeline after window, order and cap. -/
def timeline_redemptions (st : DBState) (player_id : Int)
    (from_ts to_ts : Option Nat) (limit : Nat) : List TimelineEvent :=
  source_query from_ts to_ts limit (redemption_timeline_events st player_id)

/-- get_player_timeline from app/api/players.py: the four per-source query
results are appended in source order, sorted by occurrence time descending
(null keyed as the earliest instant) and truncated to the overall
limit. -/
def get_player_timeline (st : DBState) (player_id : Int)
    (from_ts to_ts : Option Nat) (limit : Nat) : List TimelineEvent :=
  (sortDescBy evKey
    (timeline_sessions st player_id from_ts to_ts limit ++
      timeline_points st player_id from_ts to_ts limit ++
      timeline_sensors st player_id from_ts to_ts limit ++
      timeline_redemptions st player_id from_ts to_ts limit)).take limit

/-- Concrete database state for the timeline witness: one session at time
1, one ledger movement at time 2 and one sensor event at time 3, all for
player 1. -/
def exampleTimelineState : DBState :=
  { emptyDB with
      player_videogame := [{ id_player_videogame := 1, id_players := 1,
                             id_videogame := 2 }]
      videogame := [{ id_videogame := 2, name := "G" }]
      lsg_game_session := [{ id_lsg_game_session := 1,
                             id_player_videogame := 1, started_at := some 1,
                             ended_at := none }]
      points_ledger :=
        [{ id_points_ledger := 1, id_players := 1, id_point_dimension := 3,
           id_videogame := some 2, direction := "CREDIT", amount := 10,
           source_type := "ADJUST", source_ref := "ADJUST-seed",
           payload := none, occurred_at := some 2 }]
      sensor_ingest_event := [{ id_sensor_ingest_event := 1, id_players := 1,
                                occurred_at := some 3 }]
      next_ledger_id := 2 }

/-- PointDimensionCreate from app/api/admin_config.py. -/
structure PointDimensionCreate where
  id_attributes : Option Int
  id_subattributes : Option Int
  code : String
  name : String
  deriving DecidableEq, Repr

/-- PointDimensionUpdate from app/api/admin_config.py: every field
optional (partial update). -/
structure PointDimensionUpdate where
  id_attributes : Option Int
  id_subattributes : Option Int
  code : Option String
  name : Option String
  deriving DecidableEq, Repr

/-- The root validator of PointDimensionBase in app/api/admin_config.py:
the request must supply exactly one of id_attributes and id_subattributes;
both absent or both present raise a validation error before the handler
body (and hence before any database statement) runs. -/
def point_dimension_create_valid (p : PointDimensionCreate) : Bool :=
  !((decide (p.id_attributes = none) && decide (p.id_subattributes = none)) ||
    (decide (p.id_attributes ≠ none) && decide (p.id_subattributes ≠ none)))

/-- The root validator of PointDimensionUpdate in app/api/admin_config.py:
supplying both id_attributes and id_subattributes in one update raises a
validation error before the handler body runs. -/
def point_dimension_update_valid (p : PointDimensionUpdate) : Bool :=
  !(decide (p.id_attributes ≠ none) && decide (p.id_subattributes ≠ none))

/-- admin_create_point_dimension from app/api/admin_config.py with the
framework request validation in front: the validator, then the optional FK
existence checks (404 on a missing reference), then the INSERT; new_id is
the AUTO_INCREMENT id the insert receives. -/
def admin_create_point_dimension (st : DBState) (p : PointDimensionCreate)
    (new_id : Int) : DBState × Except HTTPExc PointDimensionRow :=
  if point_dimension_create_valid p then
    if (match p.id_attributes with
        | some a => st.attributes.contains a
        | none => true) then
      if (match p.id_subattributes with
          | some s => st.subattributes.contains s
          | none => true) then
        let row : PointDimensionRow :=
          { id_point_dimension := new_id, id_attributes := p.id_attributes,
            id_subattributes := p.id_subattributes, code := p.code,
            name := p.name }
        ({ st with point_dimension := st.point_dimension ++ [row] }, .ok row)
      else (st, .error ⟨404, .message "Subattribute not found"⟩)
    else (st, .error ⟨404, .message "Attribute not found"⟩)
  else
    (st, .error ⟨422, .validationError
      "exactly one of id_attributes or id_subattributes must be supplied"⟩)

/-- The SET clause assembled by admin_update_point_dimension, applied to a
row: a supplied id_attributes also sets id_subattributes to NULL, a
supplied id_subattributes also sets id_attributes to NULL, and code and
name are updated only when supplied. -/
def apply_point_dimension_update (p : PointDimensionUpdate)
    (row : PointDimensionRow) : PointDimensionRow :=
  let row1 := match p.id_attributes with
    | some a => { row with id_attributes := some a, id_subattributes := none }
    | none => row
  let row2 := match p.id_subattributes with
    | some s => { row1 with id_subattributes := some s, id_attributes := none }
    | none => row1
  let row3 := match p.code with
    | some c => { row2 with code := c }
    | none => row2
  match p.name with
  | some n => { row3 with name := n }
  | none => row3

/-- Does the update payload supply no field at all; the handler then skips
the UPDATE and returns the current record. -/
def point_dimension_update_empty (p : PointDimensionUpdate) : Bool :=
  decide (p.id_attributes = none) && decide (p.id_subattributes = none) &&
  decide (p.code = none) && decide (p.name = none)

/-- admin_update_point_dimension from app/api/admin_config.py with the
framework request validation in front: the validator, the existence check
on the record, the FK existence checks for supplied references, the
empty-payload no-op, then the UPDATE; the response re-reads the row, which
under unique primary keys is the updated row. -/
def admin_update_point_dimension (st : DBState) (pd_id : Int)
    (p : PointDimensionUpdate) : DBState × Except HTTPExc PointDimensionRow :=
  if point_dimension_update_valid p then
    match st.point_dimension.find?
        (fun r => decide (r.id_point_dimension = pd_id)) with
    | none => (st, .error ⟨404, .message "Point dimension not found"⟩)
    | some row =>
      if (match p.id_attributes with
          | some a => st.attributes.contains a
          | none => true) then
        if (match p.id_subattributes with
            | some s => st.subattributes.contains s
            | none => true) then
          if point_dimension_update_empty p then (st, .ok row)
          else
            ({ st with point_dimension := st.point_dimension.map fun r =>
                if r.id_point_dimension = pd_id then
                  apply_point_dimension_update p r
                else r },
             .ok (apply_point_dimension_update p row))
        else (st, .error ⟨404, .message "Subattribute not found"⟩)
      else (st, .error ⟨404, .message "Attribute not found"⟩)
  else
    (st, .error ⟨422, .validationError
      "cannot set id_attributes and id_subattributes simultaneously"⟩)

/-- Concrete database state for the point-dimension witnesses: attribute 3
and subattribute 4 exist, and point dimension 1 currently references the
subattribute. -/
def examplePDState : DBState :=
  { emptyDB with
      attributes := [3]
      subattributes := [4]
      point_dimension := [{ id_point_dimension := 1, id_attributes := none,
                            id_subattributes := some 4, code := "C",
                            name := "N" }] }

/-- Concrete update payload for the witnesses: only id_attributes is
supplied. -/
def examplePDUpdate : PointDimensionUpdate :=
  { id_attributes := some 3, id_subattributes := none, code := none,
    name := none }

/-- Scalar value of an exported row field. -/
inductive Val where
  | vInt (n : Int)
  | vStr (s : String)
  | vNull
  deriving DecidableEq, Repr

/-- An exported row: an ordered association list of field name and value,
standing for the Python dict. -/
abbrev ExportRow := List (String × Val)

/-- Dictionary lookup on an exported row (first binding wins, as in a
Python dict where keys are unique). -/
def rowLookup (r : ExportRow) (k : String) : Option Val :=
  match r with
  | [] => none
  | (k2, v) :: rest => if k2 = k then some v else rowLookup rest k

/-- Dictionary pop on an exported row: removes every binding of the
key. -/
def rowPop (r : ExportRow) (k : String) : ExportRow :=
  r.filter fun p => decide (p.1 ≠ k)

/-- Dictionary assignment on an exported row. -/
def rowSet (r : ExportRow) (k : String) (v : Val) : ExportRow :=
  rowPop r k ++ [(k, v)]

/-- The id_players field of a row, as the Optional[int] value that
_apply_pseudonymization reads with r.get and passes to
_pseudonymize_player (the column is an integer or absent in every export
query). -/
def rowPlayerId (r : ExportRow) : Option Int :=
  match rowLookup r "id_players" with
  | some (.vInt n) => some n
  | _ => none

/-- _pseudonymize_player from app/api/research_export.py: the first 16 hex
characters of the digest of the salt, a colon separator and the numeric
player id; None maps to None. The hash (sha256 hexdigest in the source) is
an explicit function parameter of the embedding. -/
def _pseudonymize_player (hexdigest : String → String) (salt : String) :
    Option Int → Option String
  | none => none
  | some pid => some ((hexdigest (salt ++ ":" ++ toString pid)).take 16)

/-- Body of the per-row loop of _apply_pseudonymization: set the
player_pseudo field from the id_players value, then, unless
include_raw_ids, pop id_players, player_name and player_email. -/
def pseudonymize_row (hexdigest : String → String) (salt : String)
    (include_raw_ids : Bool) (r : ExportRow) : ExportRow :=
  let r1 := rowSet r "player_pseudo"
    (match _pseudonymize_player hexdigest salt (rowPlayerId r) with
     | some s => .vStr s
     | none => .vNull)
  if include_raw_ids then r1
  else rowPop (rowPop (rowPop r1 "id_players") "player_name") "player_email"

/-- _apply_pseudonymization from app/api/research_export.py. -/
def _apply_pseudonymization (hexdigest : String → String) (salt : String)
    (rows : List ExportRow) (include_raw_ids : Bool) : List ExportRow :=
  rows.map (pseudonymize_row hexdigest salt include_raw_ids)

end LSG

namespace LSG

/-- C3: the application composition includes the research-export route
group, but defining that module fails: the export_points route declaration
references ROLE_ALL and CurrentUser, and neither name is imported into or
defined in app/api/research_export.py (its only import from app.security
is require_roles), although app/security.py does define both. Evaluating
the decorator dependencies=[require_roles(ROLE_ALL)] therefore raises
NameError at module-definition time, so the service cannot assemble its
routes. This refutes the claim that every name referenced in a route
declaration is defined at module-definition time. -/
theorem research_export_route_names_undefined :
    "research_export" ∈ main_included_router_modules ∧
    ("ROLE_ALL" ∈ export_points_route_decl_names ∧
      "ROLE_ALL" ∉ research_export_module_scope) ∧
    ("CurrentUser" ∈ export_points_route_decl_names ∧
      "CurrentUser" ∉ research_export_module_scope) ∧
    ("ROLE_ALL" ∈ security_module_names ∧
      "CurrentUser" ∈ security_module_names) := by
  decide

/-- C8: the list-players role gate. The route's own docstring and the spec
say access is admin, researcher, teacher; the code wires list_players to
require_admin_or_researcher, so with open-all mode off a teacher identity
is rejected with 403 while admin and researcher pass. This theorem
evaluates the embedded gate at the failing input (role teacher). -/
theorem list_players_gate_rejects_teacher :
    require_admin_or_researcher false
        ⟨"t-1", "teacher", none, none, "user"⟩ =
      .error ⟨403, .insufficientPermissions ["admin", "researcher"]⟩ ∧
    require_admin_or_researcher false ⟨"a-1", "admin", none, none, "user"⟩ =
      .ok ⟨"a-1", "admin", none, none, "user"⟩ ∧
    require_admin_or_researcher false
        ⟨"r-1", "researcher", none, none, "user"⟩ =
      .ok ⟨"r-1", "researcher", none, none, "user"⟩ := by
  refine ⟨?_, ?_, ?_⟩ <;> rfl

/-- C10: the player-ownership gate with open-all mode off. A player-role
identity with a null derived player_id is rejected with 403 for every path
player_id; a player-role identity passes exactly when its player_id equals
the path parameter; admin, researcher and teacher identities always
pass. -/
theorem guard_player_access_ownership (u : CurrentUser) (path_pid : Int) :
    (u.role = "player" → u.player_id = none →
      guard_player_access false path_pid u = .error ⟨403, .notAllowedPlayerAccess⟩) ∧
    (u.role = "player" →
      (guard_player_access false path_pid u = .ok u ↔ u.player_id = some path_pid)) ∧
    (u.role = "admin" ∨ u.role = "researcher" ∨ u.role = "teacher" →
      guard_player_access false path_pid u = .ok u) := by
  refine ⟨?_, ?_, ?_⟩
  · intro hr hp
    simp [guard_player_access, hr, hp]
  · intro hr
    constructor
    · intro h
      by_cases hp : u.player_id = some path_pid
      · exact hp
      · simp [guard_player_access, hr, hp] at h
    · intro hp
      simp [guard_player_access, hr, hp]
  · intro hr
    rcases hr with h | h | h <;> simp [guard_player_access, h]

/-- Unfolding lemma: the game-scoped balance of a cons. -/
lemma balance_cons (r : LedgerRow) (l : List LedgerRow)
    (pid gid pdid : Int) :
    _get_player_game_dimension_balance (r :: l) pid gid pdid =
      (if ledger_row_matches pid gid pdid r then ledger_row_signed r else 0) +
        _get_player_game_dimension_balance l pid gid pdid := by
  by_cases h : ledger_row_matches pid gid pdid r = true <;>
    simp [_get_player_game_dimension_balance, List.filter_cons, h]

/-- The game-scoped balance distributes over list append. -/
lemma balance_append (l1 l2 : List LedgerRow) (pid gid pdid : Int) :
    _get_player_game_dimension_balance (l1 ++ l2) pid gid pdid =
      _get_player_game_dimension_balance l1 pid gid pdid +
        _get_player_game_dimension_balance l2 pid gid pdid := by
  simp [_get_player_game_dimension_balance]

/-- A row whose videogame column differs from the queried game (including
the NULL case) fails the balance filter. -/
lemma ledger_row_matches_false_of_videogame_ne (r : LedgerRow)
    (pid gid pdid : Int) (h : r.id_videogame ≠ some gid) :
    ledger_row_matches pid gid pdid r = false := by
  simp [ledger_row_matches, h]

/-- The game-scoped balance is the CREDIT sum minus the DEBIT sum. -/
lemma balance_eq_credit_sub_debit (ledger : List LedgerRow)
    (pid gid pdid : Int) :
    _get_player_game_dimension_balance ledger pid gid pdid =
      spec_credit_sum ledger pid gid pdid - spec_debit_sum ledger pid gid pdid := by
  induction ledger with
  | nil => rfl
  | cons r l ih =>
    by_cases hm : ledger_row_matches pid gid pdid r = true
    · by_cases hc : r.direction = "CREDIT"
      · simp [balance_cons, spec_credit_sum, spec_debit_sum, List.filter_cons,
          hm, hc, ledger_row_signed] at ih ⊢
        omega
      · by_cases hd : r.direction = "DEBIT"
        · simp [balance_cons, spec_credit_sum, spec_debit_sum, List.filter_cons,
            hm, hc, hd, ledger_row_signed] at ih ⊢
          omega
        · simp [balance_cons, spec_credit_sum, spec_debit_sum, List.filter_cons,
            hm, hc, hd, ledger_row_signed] at ih ⊢
          omega
    · simp [balance_cons, spec_credit_sum, spec_debit_sum, List.filter_cons,
        hm] at ih ⊢
      omega

/-- C2: the balance used by redemption and redemption preview equals the
sum of amounts over CREDIT rows minus the sum over DEBIT rows among
exactly the points_ledger rows whose player, videogame and point-dimension
ids all match; consequently a row booked under a different game (here: any
row whose videogame column is not the queried game) never changes the
balance, so points credited under game A are not spendable under game
B. -/
theorem game_scoped_balance_credit_minus_debit (ledger : List LedgerRow)
    (pid gid pdid : Int) (extra : LedgerRow) :
    _get_player_game_dimension_balance ledger pid gid pdid =
      spec_credit_sum ledger pid gid pdid -
        spec_debit_sum ledger pid gid pdid ∧
    (extra.id_videogame ≠ some gid →
      _get_player_game_dimension_balance (extra :: ledger) pid gid pdid =
        _get_player_game_dimension_balance ledger pid gid pdid) := by
  constructor
  · exact balance_eq_credit_sub_debit ledger pid gid pdid
  · intro hne
    rw [balance_cons, ledger_row_matches_false_of_videogame_ne extra pid gid pdid hne]
    simp

/-- Witness for game_scoped_balance_credit_minus_debit: in the concrete
example state (one CREDIT of 10 under game 2) the balance under game 2 is
the credit sum minus the debit sum, and prepending a CREDIT of 100 under
game 7 leaves the balance under game 2 unchanged. -/
theorem game_scoped_balance_credit_minus_debit_witness :
    _get_player_game_dimension_balance exampleRedeemState.points_ledger 1 2 3 =
      spec_credit_sum exampleRedeemState.points_ledger 1 2 3 -
        spec_debit_sum exampleRedeemState.points_ledger 1 2 3 ∧
    _get_player_game_dimension_balance
        ({ id_points_ledger := 9, id_players := 1, id_point_dimension := 3,
           id_videogame := some 7, direction := "CREDIT", amount := 100,
           source_type := "ADJUST", source_ref := "ADJUST-other",
           payload := none, occurred_at := some 200 } ::
          exampleRedeemState.points_ledger) 1 2 3 =
      _get_player_game_dimension_balance exampleRedeemState.points_ledger 1 2 3 :=
  ⟨(game_scoped_balance_credit_minus_debit exampleRedeemState.points_ledger 1 2 3
      { id_points_ledger := 9, id_players := 1, id_point_dimension := 3,
        id_videogame := some 7, direction := "CREDIT", amount := 100,
        source_type := "ADJUST", source_ref := "ADJUST-other",
        payload := none, occurred_at := some 200 }).1,
   (game_scoped_balance_credit_minus_debit exampleRedeemState.points_ledger 1 2 3
      { id_points_ledger := 9, id_players := 1, id_point_dimension := 3,
        id_videogame := some 7, direction := "CREDIT", amount := 100,
        source_type := "ADJUST", source_ref := "ADJUST-other",
        payload := none, occurred_at := some 200 }).2 (by decide)⟩

/-- C1: when the mechanic configuration belongs to the game and the
game-scoped balance is strictly below the requested amount, redeem fails
with 400 INSUFFICIENT_POINTS carrying the current balance and the required
amount, and the database state is returned unchanged: no points_ledger row
and no redemption_event row is inserted. -/
theorem redeem_insufficient_points (st : DBState) (gid pid : Int)
    (payload : RedeemRequest) (tok : String) (now : Nat)
    (hmmv : mmv_exists_for_game st gid payload.modifiable_mechanic_videogame_id = true)
    (hbal : _get_player_game_dimension_balance st.points_ledger pid gid
      payload.point_dimension_id < payload.amount) :
    redeem_mechanic st gid pid payload tok now =
      (st, .error ⟨400, .insufficientPoints
        (_get_player_game_dimension_balance st.points_ledger pid gid
          payload.point_dimension_id)
        payload.amount gid pid payload.point_dimension_id⟩) := by
  simp [redeem_mechanic, hmmv, hbal]

/-- Witness for redeem_insufficient_points: the spec example, balance 10
in dimension 3 under game 2 and a request for 15, yields 400 with
current_balance 10 and required_amount 15 and leaves the state
unchanged. -/
theorem redeem_insufficient_points_witness :
    (mmv_exists_for_game exampleRedeemState 2 5 = true ∧
      _get_player_game_dimension_balance exampleRedeemState.points_ledger 1 2 3 < 15) ∧
    redeem_mechanic exampleRedeemState 2 1 exampleRedeemRequest "tok" 0 =
      (exampleRedeemState, .error ⟨400, .insufficientPoints
        (_get_player_game_dimension_balance exampleRedeemState.points_ledger 1 2 3)
        15 2 1 3⟩) :=
  ⟨⟨by decide, by decide⟩,
   redeem_insufficient_points exampleRedeemState 2 1 exampleRedeemRequest "tok" 0
     (by decide) (by decide)⟩

/-- C9: a points_ledger row whose videogame column is NULL is excluded
from every game-scoped balance; in particular a manual adjustment that
omits videogame_id changes no game-scoped redemption balance of any
player, game or dimension. -/
theorem null_videogame_rows_never_in_game_balance (r : LedgerRow)
    (ledger : List LedgerRow) (pid gid pdid : Int) (st : DBState)
    (player_id : Int) (payload : PointsAdjustRequest) (tok : String) (now : Nat) :
    (r.id_videogame = none →
      _get_player_game_dimension_balance (ledger ++ [r]) pid gid pdid =
        _get_player_game_dimension_balance ledger pid gid pdid) ∧
    (payload.videogame_id = none →
      _get_player_game_dimension_balance
          ((adjust_player_points st player_id payload tok now).1.points_ledger)
          pid gid pdid =
        _get_player_game_dimension_balance st.points_ledger pid gid pdid) := by
  have hsingle : ∀ row : LedgerRow, row.id_videogame = none →
      ∀ l : List LedgerRow,
      _get_player_game_dimension_balance (l ++ [row]) pid gid pdid =
        _get_player_game_dimension_balance l pid gid pdid := by
    intro row hnull l
    rw [balance_append]
    rw [show _get_player_game_dimension_balance [row] pid gid pdid = 0 from ?_]
    · simp
    · rw [show _get_player_game_dimension_balance [row] pid gid pdid =
          (if ledger_row_matches pid gid pdid row then ledger_row_signed row else 0) +
            _get_player_game_dimension_balance [] pid gid pdid from
          balance_cons row [] pid gid pdid]
      rw [ledger_row_matches_false_of_videogame_ne row pid gid pdid (by simp [hnull])]
      simp [_get_player_game_dimension_balance]
  constructor
  · intro hnull
    exact hsingle r hnull ledger
  · intro hnull
    by_cases hv : points_adjust_request_valid payload = true
    · simp only [adjust_player_points, hv, if_true]
      exact hsingle _ hnull st.points_ledger
    · simp [adjust_player_points, hv]

/-- Witness for null_videogame_rows_never_in_game_balance: appending a
CREDIT row with NULL videogame leaves the game-2 balance unchanged, and a
concrete manual CREDIT adjustment of 100 without videogame_id leaves the
game-2 balance of the adjusted player unchanged. -/
theorem null_videogame_rows_never_in_game_balance_witness :
    _get_player_game_dimension_balance
        (exampleRedeemState.points_ledger ++
          [{ id_points_ledger := 9, id_players := 1, id_point_dimension := 3,
             id_videogame := none, direction := "CREDIT", amount := 50,
             source_type := "ADJUST", source_ref := "ADJUST-nullgame",
             payload := none, occurred_at := some 300 }]) 1 2 3 =
      _get_player_game_dimension_balance exampleRedeemState.points_ledger 1 2 3 ∧
    _get_player_game_dimension_balance
        ((adjust_player_points exampleRedeemState 1
            { point_dimension_id := 3, direction := "CREDIT", amount := 100,
              reason := none, videogame_id := none } "w9" 300).1.points_ledger)
        1 2 3 =
      _get_player_game_dimension_balance exampleRedeemState.points_ledger 1 2 3 :=
  ⟨(null_videogame_rows_never_in_game_balance
      { id_points_ledger := 9, id_players := 1, id_point_dimension := 3,
        id_videogame := none, direction := "CREDIT", amount := 50,
        source_type := "ADJUST", source_ref := "ADJUST-nullgame",
        payload := none, occurred_at := some 300 }
      exampleRedeemState.points_ledger 1 2 3 exampleRedeemState 1
      { point_dimension_id := 3, direction := "CREDIT", amount := 100,
        reason := none, videogame_id := none } "w9" 300).1 rfl,
   (null_videogame_rows_never_in_game_balance
      { id_points_ledger := 9, id_players := 1, id_point_dimension := 3,
        id_videogame := none, direction := "CREDIT", amount := 50,
        source_type := "ADJUST", source_ref := "ADJUST-nullgame",
        payload := none, occurred_at := some 300 }
      exampleRedeemState.points_ledger 1 2 3 exampleRedeemState 1
      { point_dimension_id := 3, direction := "CREDIT", amount := 100,
        reason := none, videogame_id := none } "w9" 300).2 rfl⟩

/-- C4: the redemption preview mutates nothing: for every input the
post-request state is the input state, so any number of preview calls
leaves the ledger, redemption-event, balance and session tables unchanged;
and when the mechanic belongs to the game, the response reports whether
the requested amount is coverable by the game-scoped balance and what the
resulting balance would be. -/
theorem preview_redeem_no_mutation (st : DBState) (gid pid : Int)
    (payload : RedeemRequest) :
    (preview_redeem_mechanic st gid pid payload).1 = st ∧
    (∀ n : Nat,
      (fun s => (preview_redeem_mechanic s gid pid payload).1)^[n] st = st) ∧
    (mmv_exists_for_game st gid payload.modifiable_mechanic_videogame_id = true →
      (preview_redeem_mechanic st gid pid payload).2 = .ok
        { can_redeem := decide (payload.amount ≤
            _get_player_game_dimension_balance st.points_ledger pid gid
              payload.point_dimension_id)
          current_balance := _get_player_game_dimension_balance st.points_ledger
            pid gid payload.point_dimension_id
          required_amount := payload.amount
          resulting_balance :=
            if payload.amount ≤ _get_player_game_dimension_balance
                st.points_ledger pid gid payload.point_dimension_id then
              _get_player_game_dimension_balance st.points_ledger pid gid
                payload.point_dimension_id - payload.amount
            else
              _get_player_game_dimension_balance st.points_ledger pid gid
                payload.point_dimension_id
          game_id := gid
          player_id := pid
          point_dimension_id := payload.point_dimension_id
          modifiable_mechanic_videogame_id :=
            payload.modifiable_mechanic_videogame_id }) := by
  have h1 : (preview_redeem_mechanic st gid pid payload).1 = st := by
    by_cases h : mmv_exists_for_game st gid
        payload.modifiable_mechanic_videogame_id = true <;>
      simp [preview_redeem_mechanic, h]
  refine ⟨h1, fun n => Function.iterate_fixed h1 n, ?_⟩
  intro h
  simp [preview_redeem_mechanic, h]

/-- Witness for preview_redeem_no_mutation: five preview calls on the
concrete example state leave it unchanged, and the response for a request
of 15 against balance 10 reports can_redeem false and resulting balance
10. -/
theorem preview_redeem_no_mutation_witness :
    (fun s => (preview_redeem_mechanic s 2 1 exampleRedeemRequest).1)^[5]
        exampleRedeemState = exampleRedeemState ∧
    (preview_redeem_mechanic exampleRedeemState 2 1 exampleRedeemRequest).2 =
      .ok { can_redeem := false, current_balance := 10, required_amount := 15,
            resulting_balance := 10, game_id := 2, player_id := 1,
            point_dimension_id := 3, modifiable_mechanic_videogame_id := 5 } :=
  ⟨(preview_redeem_no_mutation exampleRedeemState 2 1 exampleRedeemRequest).2.1 5,
   by
    rw [(preview_redeem_no_mutation exampleRedeemState 2 1
      exampleRedeemRequest).2.2 (by decide)]
    rfl⟩

/-- Membership in a descending insertion. -/
lemma mem_insertDesc {α : Type} (key : α → Nat) (x a : α) (l : List α) :
    a ∈ insertDesc key x l ↔ a = x ∨ a ∈ l := by
  induction l with
  | nil => simp [insertDesc]
  | cons y ys ih =>
    by_cases h : key y ≤ key x
    · simp [insertDesc, h]
    · simp [insertDesc, h, ih]
      tauto

/-- Descending insertion preserves descending sortedness. -/
lemma pairwise_insertDesc {α : Type} (key : α → Nat) (x : α) (l : List α)
    (h : l.Pairwise fun a b => key b ≤ key a) :
    (insertDesc key x l).Pairwise fun a b => key b ≤ key a := by
  induction l with
  | nil => simp [insertDesc]
  | cons y ys ih =>
    rcases List.pairwise_cons.mp h with ⟨hy, hys⟩
    by_cases hk : key y ≤ key x
    · simp only [insertDesc, if_pos hk]
      refine List.pairwise_cons.mpr ⟨?_, h⟩
      intro b hb
      rcases List.mem_cons.mp hb with e | hmem
      · exact e ▸ hk
      · exact le_trans (hy b hmem) hk
    · simp only [insertDesc, if_neg hk]
      refine List.pairwise_cons.mpr ⟨?_, ih hys⟩
      intro b hb
      rcases (mem_insertDesc key x b ys).mp hb with e | hmem
      · subst e
        omega
      · exact hy b hmem

/-- The descending sort is sorted by descending key. -/
lemma pairwise_sortDescBy {α : Type} (key : α → Nat) (l : List α) :
    (sortDescBy key l).Pairwise fun a b => key b ≤ key a := by
  induction l with
  | nil => simp [sortDescBy]
  | cons x xs ih => exact pairwise_insertDesc key x _ ih

/-- The descending sort has the same members as its input. -/
lemma mem_sortDescBy {α : Type} (key : α → Nat) (a : α) (l : List α) :
    a ∈ sortDescBy key l ↔ a ∈ l := by
  induction l with
  | nil => simp [sortDescBy]
  | cons x xs ih => simp [sortDescBy, mem_insertDesc, ih]

/-- Every event surviving a per-source timeline query comes from the
source and satisfies the time window. -/
lemma mem_source_query (from_ts to_ts : Option Nat) (limit : Nat)
    (events : List TimelineEvent) (e : TimelineEvent)
    (h : e ∈ source_query from_ts to_ts limit events) :
    e ∈ events ∧ in_window from_ts to_ts e.occurred_at = true := by
  have h1 := List.mem_of_mem_take h
  have h2 := (mem_sortDescBy evKey e _).mp h1
  exact ⟨(List.mem_filter.mp h2).1, (List.mem_filter.mp h2).2⟩

/-- C5: the unified player timeline is sorted by occurrence time in
descending order (a null timestamp keyed as the earliest possible
instant), is truncated to the overall limit, and contains only events that
come from one of the four per-source queries and satisfy the optional time
window; each per-source query is itself capped at the same limit. -/
theorem player_timeline_sorted_and_capped (st : DBState) (pid : Int)
    (from_ts to_ts : Option Nat) (limit : Nat) :
    (get_player_timeline st pid from_ts to_ts limit).Pairwise
      (fun a b => evKey b ≤ evKey a) ∧
    (get_player_timeline st pid from_ts to_ts limit).length ≤ limit ∧
    (∀ e ∈ get_player_timeline st pid from_ts to_ts limit,
      (e ∈ timeline_sessions st pid from_ts to_ts limit ∨
        e ∈ timeline_points st pid from_ts to_ts limit ∨
        e ∈ timeline_sensors st pid from_ts to_ts limit ∨
        e ∈ timeline_redemptions st pid from_ts to_ts limit) ∧
      in_window from_ts to_ts e.occurred_at = true) ∧
    ((timeline_sessions st pid from_ts to_ts limit).length ≤ limit ∧
      (timeline_points st pid from_ts to_ts limit).length ≤ limit ∧
      (timeline_sensors st pid from_ts to_ts limit).length ≤ limit ∧
      (timeline_redemptions st pid from_ts to_ts limit).length ≤ limit) ∧
    (∀ e e2 : TimelineEvent, e.occurred_at = none → evKey e ≤ evKey e2) := by
  refine ⟨?_, ?_, ?_, ⟨?_, ?_, ?_, ?_⟩, ?_⟩
  · exact (pairwise_sortDescBy evKey _).sublist (List.take_sublist _ _)
  · exact List.length_take_le _ _
  · intro e he
    have h1 := List.mem_of_mem_take he
    have h2 := (mem_sortDescBy evKey e _).mp h1
    simp only [List.mem_append] at h2
    have hw : e ∈ timeline_sessions st pid from_ts to_ts limit ∨
        e ∈ timeline_points st pid from_ts to_ts limit ∨
        e ∈ timeline_sensors st pid from_ts to_ts limit ∨
        e ∈ timeline_redemptions st pid from_ts to_ts limit := by
      tauto
    refine ⟨hw, ?_⟩
    rcases hw with h | h | h | h <;>
      exact (mem_source_query from_ts to_ts limit _ e h).2
  · exact List.length_take_le _ _
  · exact List.length_take_le _ _
  · exact List.length_take_le _ _
  · exact List.length_take_le _ _
  · intro e e2 h
    simp [evKey, h]

/-- Witness for player_timeline_sorted_and_capped: on the concrete state
with events at times 1, 2 and 3 across three source types, the timeline is
sorted descending and within the limit 10, and its sensor event at time 3
is traced back to a per-source query and the (absent) window. -/
theorem player_timeline_sorted_and_capped_witness :
    (get_player_timeline exampleTimelineState 1 none none 10).Pairwise
      (fun a b => evKey b ≤ evKey a) ∧
    (get_player_timeline exampleTimelineState 1 none none 10).length ≤ 10 ∧
    ((⟨"sensor_ingest", some 3, 1⟩ : TimelineEvent) ∈
        timeline_sessions exampleTimelineState 1 none none 10 ∨
      (⟨"sensor_ingest", some 3, 1⟩ : TimelineEvent) ∈
        timeline_points exampleTimelineState 1 none none 10 ∨
      (⟨"sensor_ingest", some 3, 1⟩ : TimelineEvent) ∈
        timeline_sensors exampleTimelineState 1 none none 10 ∨
      (⟨"sensor_ingest", some 3, 1⟩ : TimelineEvent) ∈
        timeline_redemptions exampleTimelineState 1 none none 10) :=
  ⟨(player_timeline_sorted_and_capped exampleTimelineState 1 none none 10).1,
   (player_timeline_sorted_and_capped exampleTimelineState 1 none none 10).2.1,
   ((player_timeline_sorted_and_capped exampleTimelineState 1 none none 10).2.2.1
     ⟨"sensor_ingest", some 3, 1⟩ (by decide)).1⟩

/-- Applying an update that supplies only id_attributes links the row to
that attribute and nulls the subattribute linkage. -/
lemma apply_point_dimension_update_attr (p : PointDimensionUpdate)
    (row : PointDimensionRow) (a : Int) (ha : p.id_attributes = some a)
    (hs : p.id_subattributes = none) :
    (apply_point_dimension_update p row).id_attributes = some a ∧
      (apply_point_dimension_update p row).id_subattributes = none := by
  cases hc : p.code <;> cases hn : p.name <;>
    simp [apply_point_dimension_update, ha, hs, hc, hn]

/-- Applying an update that supplies only id_subattributes links the row
to that subattribute and nulls the attribute linkage. -/
lemma apply_point_dimension_update_subattr (p : PointDimensionUpdate)
    (row : PointDimensionRow) (s : Int) (hs : p.id_subattributes = some s)
    (ha : p.id_attributes = none) :
    (apply_point_dimension_update p row).id_subattributes = some s ∧
      (apply_point_dimension_update p row).id_attributes = none := by
  cases hc : p.code <;> cases hn : p.name <;>
    simp [apply_point_dimension_update, ha, hs, hc, hn]

/-- C6: a PointDimension create supplying both linkage ids or neither is
rejected by request validation with the database state unchanged (no
statement executes); an update supplying both is likewise rejected with
the state unchanged; and an update supplying exactly one linkage id that
returns a record yields a record referencing that id with the other
linkage column set to NULL. -/
theorem point_dimension_xor_enforced (st : DBState)
    (pc : PointDimensionCreate) (pu : PointDimensionUpdate)
    (pd_id new_id : Int) :
    ((pc.id_attributes = none ∧ pc.id_subattributes = none) ∨
        (pc.id_attributes ≠ none ∧ pc.id_subattributes ≠ none) →
      admin_create_point_dimension st pc new_id =
        (st, .error ⟨422, .validationError
          "exactly one of id_attributes or id_subattributes must be supplied"⟩)) ∧
    (pu.id_attributes ≠ none → pu.id_subattributes ≠ none →
      admin_update_point_dimension st pd_id pu =
        (st, .error ⟨422, .validationError
          "cannot set id_attributes and id_subattributes simultaneously"⟩)) ∧
    (∀ a : Int, pu.id_attributes = some a → pu.id_subattributes = none →
      ∀ r : PointDimensionRow,
        (admin_update_point_dimension st pd_id pu).2 = .ok r →
        r.id_attributes = some a ∧ r.id_subattributes = none) ∧
    (∀ s : Int, pu.id_subattributes = some s → pu.id_attributes = none →
      ∀ r : PointDimensionRow,
        (admin_update_point_dimension st pd_id pu).2 = .ok r →
        r.id_subattributes = some s ∧ r.id_attributes = none) := by
  refine ⟨?_, ?_, ?_, ?_⟩
  · intro h
    rcases h with ⟨h1, h2⟩ | ⟨h1, h2⟩ <;>
      simp [admin_create_point_dimension, point_dimension_create_valid, h1, h2]
  · intro h1 h2
    simp [admin_update_point_dimension, point_dimension_update_valid, h1, h2]
  · intro a ha hs r hok
    have hval : point_dimension_update_valid pu = true := by
      simp [point_dimension_update_valid, hs]
    simp only [admin_update_point_dimension, hval, if_true] at hok
    split at hok
    · simp at hok
    · split at hok
      · split at hok
        · split at hok
          · rename_i hempty
            rw [point_dimension_update_empty, ha] at hempty
            simp at hempty
          · simp only [Except.ok.injEq] at hok
            exact hok ▸ apply_point_dimension_update_attr pu _ a ha hs
        · simp at hok
      · simp at hok
  · intro s hs ha r hok
    have hval : point_dimension_update_valid pu = true := by
      simp [point_dimension_update_valid, ha]
    simp only [admin_update_point_dimension, hval, if_true] at hok
    split at hok
    · simp at hok
    · split at hok
      · split at hok
        · split at hok
          · rename_i hempty
            rw [point_dimension_update_empty, hs] at hempty
            simp at hempty
          · simp only [Except.ok.injEq] at hok
            exact hok ▸ apply_point_dimension_update_subattr pu _ s hs ha
        · simp at hok
      · simp at hok

/-- Witness for point_dimension_xor_enforced: a create with neither
linkage id is rejected with the state unchanged, and the concrete update
supplying only id_attributes 3 to point dimension 1 returns a record
linked to attribute 3 with the subattribute column nulled. -/
theorem point_dimension_xor_enforced_witness :
    admin_create_point_dimension examplePDState
        { id_attributes := none, id_subattributes := none, code := "X",
          name := "Y" } 9 =
      (examplePDState, .error ⟨422, .validationError
        "exactly one of id_attributes or id_subattributes must be supplied"⟩) ∧
    ((⟨1, some 3, none, "C", "N"⟩ : PointDimensionRow).id_attributes = some 3 ∧
      (⟨1, some 3, none, "C", "N"⟩ : PointDimensionRow).id_subattributes = none) :=
  ⟨(point_dimension_xor_enforced examplePDState
      { id_attributes := none, id_subattributes := none, code := "X",
        name := "Y" } examplePDUpdate 1 9).1 (Or.inl ⟨rfl, rfl⟩),
   (point_dimension_xor_enforced examplePDState
      { id_attributes := none, id_subattributes := none, code := "X",
        name := "Y" } examplePDUpdate 1 9).2.2.1 3 rfl rfl
     ⟨1, some 3, none, "C", "N"⟩ rfl⟩

/-- Looking up a key in a row from which it was popped yields nothing. -/
lemma rowLookup_rowPop_self (r : ExportRow) (k : String) :
    rowLookup (rowPop r k) k = none := by
  induction r with
  | nil => rfl
  | cons p rest ih =>
    by_cases h : p.1 = k
    · simpa [rowPop, List.filter_cons, h] using ih
    · simpa [rowPop, List.filter_cons, rowLookup, h] using ih

/-- Popping one key leaves lookups of a different key unchanged. -/
lemma rowLookup_rowPop_other (r : ExportRow) (k k2 : String) (hne : k ≠ k2) :
    rowLookup (rowPop r k2) k = rowLookup r k := by
  induction r with
  | nil => rfl
  | cons p rest ih =>
    by_cases h2 : p.1 = k2
    · have hk : ¬ p.1 = k := fun e => hne (e.symm.trans h2)
      simpa [rowPop, List.filter_cons, rowLookup, h2, hk, Ne.symm hne] using ih
    · by_cases hk : p.1 = k
      · simp [rowPop, List.filter_cons, rowLookup, h2, hk, hne]
      · simpa [rowPop, List.filter_cons, rowLookup, h2, hk] using ih

/-- Looking up the key just assigned yields the assigned value. -/
lemma rowLookup_rowSet_self (r : ExportRow) (k : String) (v : Val) :
    rowLookup (rowSet r k v) k = some v := by
  unfold rowSet
  have h : ∀ l : ExportRow, (∀ p ∈ l, ¬ p.1 = k) →
      rowLookup (l ++ [(k, v)]) k = some v := by
    intro l
    induction l with
    | nil => simp [rowLookup]
    | cons p rest ih =>
      intro hall
      have hp : ¬ p.1 = k := hall p (List.mem_cons_self p rest)
      simpa [rowLookup, hp] using ih fun q hq => hall q (List.mem_cons_of_mem p hq)
  refine h (rowPop r k) fun p hp => ?_
  exact of_decide_eq_true (List.mem_filter.mp hp).2

/-- The player_pseudo field of a stripped row is exactly the pseudonym of
the row's id_players value. -/
lemma rowLookup_pseudonymize_row (hexdigest : String → String)
    (salt : String) (r : ExportRow) :
    rowLookup (pseudonymize_row hexdigest salt false r) "player_pseudo" =
      some (match _pseudonymize_player hexdigest salt (rowPlayerId r) with
            | some s => .vStr s
            | none => .vNull) := by
  unfold pseudonymize_row
  simp only [Bool.false_eq_true, if_false]
  rw [rowLookup_rowPop_other _ _ _ (by decide),
    rowLookup_rowPop_other _ _ _ (by decide),
    rowLookup_rowPop_other _ _ _ (by decide)]
  exact rowLookup_rowSet_self r "player_pseudo" _

/-- C7: for a fixed salt (and digest function) the exported player_pseudo
field is a function of the row's numeric player id alone — two rows with
the same id_players value receive the same pseudonym — and that pseudonym
is the first 16 hex characters of the digest of the salt joined to the
player id; with include_raw_ids false, no emitted row contains the raw
id_players, player_name or player_email fields. -/
theorem export_pseudonymization_stable_and_strips (hexdigest : String → String)
    (salt : String) (rows : List ExportRow) :
    (∀ a b : ExportRow, rowPlayerId a = rowPlayerId b →
      rowLookup (pseudonymize_row hexdigest salt false a) "player_pseudo" =
        rowLookup (pseudonymize_row hexdigest salt false b) "player_pseudo") ∧
    (∀ r, r ∈ _apply_pseudonymization hexdigest salt rows false →
      rowLookup r "id_players" = none ∧ rowLookup r "player_name" = none ∧
        rowLookup r "player_email" = none) ∧
    (∀ pid : Int, _pseudonymize_player hexdigest salt (some pid) =
      some ((hexdigest (salt ++ ":" ++ toString pid)).take 16)) := by
  refine ⟨?_, ?_, fun pid => rfl⟩
  · intro a b hab
    rw [rowLookup_pseudonymize_row, rowLookup_pseudonymize_row, hab]
  · intro r hr
    obtain ⟨a, ha, rfl⟩ := List.mem_map.mp hr
    unfold pseudonymize_row
    simp only [Bool.false_eq_true, if_false]
    refine ⟨?_, ?_, ?_⟩
    · rw [rowLookup_rowPop_other _ _ _ (by decide),
        rowLookup_rowPop_other _ _ _ (by decide)]
      exact rowLookup_rowPop_self _ "id_players"
    · rw [rowLookup_rowPop_other _ _ _ (by decide)]
      exact rowLookup_rowPop_self _ "player_name"
    · exact rowLookup_rowPop_self _ "player_email"

/-- Witness for export_pseudonymization_stable_and_strips: with a concrete
digest function and salt, the stripped export of a row with id 7, a name
and an email contains none of the three raw fields, and two rows sharing
id_players 7 receive the same player_pseudo value. -/
theorem export_pseudonymization_stable_and_strips_witness :
    (rowLookup (pseudonymize_row (fun s => s) "salt" false
        [("id_players", .vInt 7), ("player_name", .vStr "Ana"),
         ("player_email", .vStr "ana.example")]) "id_players" = none ∧
      rowLookup (pseudonymize_row (fun s => s) "salt" false
        [("id_players", .vInt 7), ("player_name", .vStr "Ana"),
         ("player_email", .vStr "ana.example")]) "player_name" = none ∧
      rowLookup (pseudonymize_row (fun s => s) "salt" false
        [("id_players", .vInt 7), ("player_name", .vStr "Ana"),
         ("player_email", .vStr "ana.example")]) "player_email" = none) ∧
    rowLookup (pseudonymize_row (fun s => s) "salt" false
        [("id_players", .vInt 7)]) "player_pseudo" =
      rowLookup (pseudonymize_row (fun s => s) "salt" false
        [("other", .vNull), ("id_players", .vInt 7)]) "player_pseudo" :=
  ⟨(export_pseudonymization_stable_and_strips (fun s => s) "salt"
      [[("id_players", .vInt 7), ("player_name", .vStr "Ana"),
        ("player_email", .vStr "ana.example")]]).2.1
      (pseudonymize_row (fun s => s) "salt" false
        [("id_players", .vInt 7), ("player_name", .vStr "Ana"),
         ("player_email", .vStr "ana.example")])
      (List.mem_map_of_mem _ (List.mem_singleton_self _)),
   (export_pseudonymization_stable_and_strips (fun s => s) "salt" []).1
      [("id_players", .vInt 7)] [("other", .vNull), ("id_players", .vInt 7)]
      rfl⟩

/-- Witness for guard_player_access_ownership: a player-role identity with
no player_id is rejected for path player_id 6, and an elevated researcher
identity passes. -/
theorem guard_player_access_ownership_witness :
    guard_player_access false 6 ⟨"x", "player", none, none, "user"⟩ =
      .error ⟨403, .notAllowedPlayerAccess⟩ ∧
    guard_player_access false 6 ⟨"r", "researcher", none, none, "user"⟩ =
      .ok ⟨"r", "researcher", none, none, "user"⟩ :=
  ⟨(guard_player_access_ownership ⟨"x", "player", none, none, "user"⟩ 6).1 rfl rfl,
   (guard_player_access_ownership ⟨"r", "researcher", none, none, "user"⟩ 6).2.2
     (Or.inr (Or.inl rfl))⟩

end LSG
